import Mathlib

/-!
Verification of the persistence and caching layer of the MedRelay trading
dashboard: a shallow embedding of `src/data/persistence/state_manager.py`,
`src/data/cache/cache_manager.py` and `src/auth/token_manager.py`.

Modelling conventions:
* SQLite tables become Lean structures; the two singleton tables
  (`capital_state`, `token_state`) become `Option` fields, association
  tables become lists kept in insertion order (which is also the
  `AUTOINCREMENT` / timestamp order produced by the code).
* Python `float` (SQLite `REAL`) amounts are modelled as `Rat`: every
  claim under study concerns the arithmetic structure of the algorithms,
  and REAL round-trips through storage exactly.
* `datetime.now()` is passed in explicitly as an integer timestamp
  parameter `now`; dates are integers.
* The Python `json` module and `hashlib.md5` are external libraries: they
  are passed in as parameters (`serialize`/`deserialize` returning
  `Option`, a hash function `md5hex`).  An operation of the source that
  lets an exception escape is modelled with `Except Unit`.
* Each public method runs one transaction that either commits or rolls
  back; a method catching `sqlite3.Error` and returning a failure value
  is modelled by returning the failure value with the state unchanged
  (this includes the ledger `CHECK` constraint on `adjustment_type`,
  whose violation aborts the transaction and rolls back every prior
  statement of the same call).
-/

/-- Decidable equality for `Except` results, so that concrete runs of
the model can be checked by evaluation. -/
instance {ε α : Type} [DecidableEq ε] [DecidableEq α] :
    DecidableEq (Except ε α) := fun x y =>
  match x, y with
  | Except.error a, Except.error b =>
    if h : a = b then Decidable.isTrue (congrArg Except.error h)
    else Decidable.isFalse (fun he => h (Except.error.inj he))
  | Except.ok a, Except.ok b =>
    if h : a = b then Decidable.isTrue (congrArg Except.ok h)
    else Decidable.isFalse (fun he => h (Except.ok.inj he))
  | Except.error _, Except.ok _ => Decidable.isFalse (fun he => Except.noConfusion he)
  | Except.ok _, Except.error _ => Decidable.isFalse (fun he => Except.noConfusion he)

namespace StateManager

/-- Row of the `capital_state` singleton table (`id = 1`). -/
structure CapitalStateRow where
  current_capital : Rat
  initial_capital : Rat
  allocated_capital : Rat
  available_capital : Rat
  last_updated : Int
deriving DecidableEq

/-- Row of the append-only `capital_adjustments` ledger table. -/
structure AdjustmentRow where
  timestamp : Int
  adjustment_type : String
  amount : Rat
  previous_capital : Rat
  new_capital : Rat
  reason : String
  reference_id : Option String
deriving DecidableEq

/-- Row of the `session_state` table (one per `session_date`). -/
structure SessionRow where
  session_date : Int
  starting_capital : Rat
  realized_pnl : Rat
  unrealized_pnl : Rat
  trades_count : Nat
  winning_trades : Nat
  losing_trades : Nat
  circuit_breaker_triggered : Nat
  session_notes : Option String
  created_at : Int
  updated_at : Int
deriving DecidableEq

/-- Row of the generic `app_state` key-value table. -/
structure AppStateRow where
  value : String
  vtype : String
  created_at : Int
  updated_at : Int
deriving DecidableEq

/-- The state database owned by `StateManager` (the tables the claims
touch). -/
structure StateDB where
  app_state : List (String × AppStateRow)
  capital_state : Option CapitalStateRow
  capital_adjustments : List AdjustmentRow
  session_state : List SessionRow
deriving DecidableEq

/-- A freshly `_init_database`-d state database: empty tables. -/
def emptyStateDB : StateDB :=
  { app_state := [], capital_state := none, capital_adjustments := [],
    session_state := [] }

/-- The `CHECK` list of the `capital_adjustments.adjustment_type` column. -/
def validAdjustmentTypes : List String :=
  ["DEPOSIT", "WITHDRAWAL", "MANUAL_ADJUSTMENT",
   "TRADE_PROFIT", "TRADE_LOSS", "INITIAL_SETUP"]

/-- Python `abs` on a number. -/
def pyAbs (q : Rat) : Rat := if q < 0 then -q else q

/-- The new-capital computation of `adjust_capital` (lines 384-390 of
`state_manager.py`): DEPOSIT/TRADE_PROFIT add `abs(amount)`,
WITHDRAWAL/TRADE_LOSS subtract `abs(amount)`, anything else (the
`else: # MANUAL_ADJUSTMENT` branch) adds the signed amount. -/
def computedNewCapital (previous_capital amount : Rat)
    (adjustment_type : String) : Rat :=
  if adjustment_type = "DEPOSIT" ∨ adjustment_type = "TRADE_PROFIT" then
    previous_capital + pyAbs amount
  else if adjustment_type = "WITHDRAWAL" ∨ adjustment_type = "TRADE_LOSS" then
    previous_capital - pyAbs amount
  else
    previous_capital + amount

/-- `StateManager.initialize_capital` (lines 296-345): fails when the
singleton row already exists, otherwise inserts
`(1, initial, initial, 0, initial, now)` and one INITIAL_SETUP ledger
row with `previous_capital = 0`. -/
def initialize_capital (db : StateDB) (initial_capital : Rat)
    (reason : String) (now : Int) : Bool × StateDB :=
  match db.capital_state with
  | some _ => (false, db)
  | none =>
    (true,
     { db with
        capital_state := some
          { current_capital := initial_capital
            initial_capital := initial_capital
            allocated_capital := 0
            available_capital := initial_capital
            last_updated := now }
        capital_adjustments := db.capital_adjustments ++
          [{ timestamp := now, adjustment_type := "INITIAL_SETUP",
             amount := initial_capital, previous_capital := 0,
             new_capital := initial_capital, reason := reason,
             reference_id := none }] })

/-- `StateManager.adjust_capital` (lines 347-424).  Fails with no
mutation when uninitialized, when the computed new capital is negative,
or when the `CHECK` constraint rejects `adjustment_type` (the raised
`IntegrityError` is caught and the unfinished transaction rolls back on
close, undoing the earlier `UPDATE`).  On success the singleton row and
the appended ledger row commit together.  Note the SQL
`SET current_capital = ?, available_capital = current_capital -
allocated_capital` evaluates its right-hand sides against the
pre-update row, so `available_capital` is recomputed from the OLD
`current_capital`. -/
def adjust_capital (db : StateDB) (amount : Rat) (adjustment_type : String)
    (reason : String) (reference_id : Option String) (now : Int) :
    Bool × StateDB :=
  match db.capital_state with
  | none => (false, db)
  | some row =>
    let previous_capital := row.current_capital
    let new_capital := computedNewCapital previous_capital amount adjustment_type
    if new_capital < 0 then (false, db)
    else if adjustment_type ∈ validAdjustmentTypes then
      (true,
       { db with
          capital_state := some
            { row with
                current_capital := new_capital
                available_capital := row.current_capital - row.allocated_capital
                last_updated := now }
          capital_adjustments := db.capital_adjustments ++
            [{ timestamp := now, adjustment_type := adjustment_type,
               amount := amount, previous_capital := previous_capital,
               new_capital := new_capital, reason := reason,
               reference_id := reference_id }] })
    else (false, db)

/-- One `adjust_capital` call of a call sequence. -/
structure AdjCall where
  amount : Rat
  adjustment_type : String
  reason : String
  reference_id : Option String
  now : Int

/-- Run a sequence of `adjust_capital` calls, keeping the final state. -/
def runAdjustments (db : StateDB) : List AdjCall → StateDB
  | [] => db
  | c :: cs =>
    runAdjustments
      (adjust_capital db c.amount c.adjustment_type c.reason c.reference_id c.now).2 cs

/-- The capital-state row, when present, carries a nonnegative
`current_capital`. -/
def capitalNonneg (db : StateDB) : Prop :=
  ∀ cs, db.capital_state = some cs → 0 ≤ cs.current_capital

/-- Chain-replay of ledger rows: each row must start from the running
capital and moves it to its `new_capital`. -/
def chainFrom (c : Rat) : List AdjustmentRow → Option Rat
  | [] => some c
  | r :: rs => if r.previous_capital = c then chainFrom r.new_capital rs else none

/-- Replay the ledger from its INITIAL_SETUP head row (the spec's
ledger-consistency replay). -/
def replayLedger : List AdjustmentRow → Option Rat
  | [] => none
  | r :: rs =>
    if r.adjustment_type = "INITIAL_SETUP" ∧ r.previous_capital = 0 then
      chainFrom r.new_capital rs
    else none

/-- `starting_capital` snapshot used by `get_or_create_session`
(lines 543-547): current capital if initialized, else 0. -/
def startingCapitalSnapshot (db : StateDB) : Rat :=
  match db.capital_state with
  | some cs => cs.current_capital
  | none => 0

/-- Find the session row for a date (the `WHERE session_date = ?`
lookup; dates are UNIQUE). -/
def findSession : List SessionRow → Int → Option SessionRow
  | [], _ => none
  | r :: rs, d => if r.session_date = d then some r else findSession rs d

/-- `StateManager.get_or_create_session` (lines 522-566): returns the
existing row unchanged, or inserts one with the snapshot capital and
the schema's column defaults. -/
def get_or_create_session (db : StateDB) (session_date : Int) (now : Int) :
    SessionRow × StateDB :=
  match findSession db.session_state session_date with
  | some row => (row, db)
  | none =>
    let row : SessionRow :=
      { session_date := session_date
        starting_capital := startingCapitalSnapshot db
        realized_pnl := 0, unrealized_pnl := 0
        trades_count := 0, winning_trades := 0, losing_trades := 0
        circuit_breaker_triggered := 0, session_notes := none
        created_at := now, updated_at := now }
    (row, { db with session_state := db.session_state ++ [row] })

/-- Find a row of the `app_state` table by key. -/
def findApp : List (String × AppStateRow) → String → Option AppStateRow
  | [], _ => none
  | (k, r) :: rs, key => if k = key then some r else findApp rs key

/-- `INSERT OR REPLACE` into `app_state`. -/
def upsertApp : List (String × AppStateRow) → String → AppStateRow →
    List (String × AppStateRow)
  | [], key, r => [(key, r)]
  | (k, r') :: rs, key, r =>
    if k = key then (key, r) :: rs else (k, r') :: upsertApp rs key r

/-- `StateManager.set` (lines 185-226).  `json.dumps` runs inside a
`try` whose `except` clause catches only `sqlite3.Error`, so a
serialization failure (modelled by `serialize value = none`) escapes as
an uncaught exception (`Except.error`).  On success the row is upserted
with `created_at` preserved by the `COALESCE` subquery. -/
def set {W : Type} (serialize : W → Option String) (pyTypeName : W → String)
    (db : StateDB) (key : String) (value : W) (now : Int) :
    Except Unit (Bool × StateDB) :=
  match serialize value with
  | none => Except.error ()
  | some value_json =>
    let created_at :=
      match findApp db.app_state key with
      | some r => r.created_at
      | none => now
    let newRow : AppStateRow :=
      { value := value_json, vtype := pyTypeName value,
        created_at := created_at, updated_at := now }
    Except.ok (true, { db with app_state := upsertApp db.app_state key newRow })

end StateManager

namespace CacheManager

/-- Row of the `cache` table (`key` is the PRIMARY KEY; `value` holds
the serialized payload text). -/
structure CacheRow where
  value : String
  created_at : Int
  expires_at : Int
  access_count : Nat
  last_accessed : Option Int
deriving DecidableEq

/-- The `cache_stats` singleton row (`id = 1`). -/
structure CacheStats where
  total_hits : Nat
  total_misses : Nat
  total_sets : Nat
  total_evictions : Nat
  last_updated : Int
deriving DecidableEq

/-- The cache database together with the in-memory fields of the
`CacheManager` instance (`_last_cleanup`, `cleanup_interval`,
`_hits`, `_misses`). -/
structure CacheDB where
  entries : List (String × CacheRow)
  stats : CacheStats
  last_cleanup : Int
  cleanup_interval : Int
  session_hits : Nat
  session_misses : Nat
deriving DecidableEq

/-- A freshly constructed `CacheManager` over an empty database:
`_init_database` creates the tables and the zeroed stats row. -/
def initCacheDB (now cleanup_interval : Int) : CacheDB :=
  let stats0 : CacheStats :=
    { total_hits := 0, total_misses := 0, total_sets := 0,
      total_evictions := 0, last_updated := now }
  { entries := [], stats := stats0, last_cleanup := now,
    cleanup_interval := cleanup_interval, session_hits := 0,
    session_misses := 0 }

/-- `CacheManager._generate_key` (lines 122-124): keys longer than 200
characters are content-hashed (`md5hex` stands for the external
`hashlib.md5(...).hexdigest()`), shorter keys are used verbatim. -/
def generate_key (md5hex : String → String) (key : String) : String :=
  if key.length > 200 then md5hex key else key

/-- Find the cache row stored under a (normalized) key. -/
def findRow : List (String × CacheRow) → String → Option CacheRow
  | [], _ => none
  | (k, r) :: rs, key => if k = key then some r else findRow rs key

/-- The `SELECT ... WHERE key = ? AND expires_at > ?` read: a row is
returned only when it is live at `now`. -/
def findLive (entries : List (String × CacheRow)) (key : String) (now : Int) :
    Option CacheRow :=
  match findRow entries key with
  | some r => if now < r.expires_at then some r else none
  | none => none

/-- `INSERT OR REPLACE` of a cache row. -/
def upsert : List (String × CacheRow) → String → CacheRow →
    List (String × CacheRow)
  | [], key, r => [(key, r)]
  | (k, r') :: rs, key, r =>
    if k = key then (key, r) :: rs else (k, r') :: upsert rs key r

/-- The hit-path `UPDATE cache SET access_count = access_count + 1,
last_accessed = ? WHERE key = ?`. -/
def bumpAccess (entries : List (String × CacheRow)) (key : String)
    (now : Int) : List (String × CacheRow) :=
  entries.map fun e =>
    if e.1 = key then
      (e.1, { e.2 with access_count := e.2.access_count + 1,
                       last_accessed := some now })
    else e

/-- `CacheManager._cleanup_expired` (lines 313-352): counts the rows
with `expires_at <= now`, and when the count is positive deletes them
and adds the count to `total_evictions`. -/
def cleanup_expired (db : CacheDB) (now : Int) : Nat × CacheDB :=
  let count := (db.entries.filter fun e => e.2.expires_at ≤ now).length
  if count > 0 then
    (count,
     { db with
        entries := db.entries.filter fun e => now < e.2.expires_at
        stats := { db.stats with
          total_evictions := db.stats.total_evictions + count
          last_updated := now } })
  else (count, db)

/-- `CacheManager._maybe_cleanup` (lines 306-311): sweep at most once
per `cleanup_interval`. -/
def maybe_cleanup (db : CacheDB) (now : Int) : CacheDB :=
  if now - db.last_cleanup > db.cleanup_interval then
    { (cleanup_expired db now).2 with last_cleanup := now }
  else db

/-- `CacheManager.set` (lines 126-182): runs the maybe-sweep, then
serializes; a serialization failure (`json.dumps` raising
`TypeError`/`ValueError`, modelled by `serialize value = none`) is
caught and reported as `false`; otherwise the row is upserted with
`expires_at = now + ttl_seconds` and a reset `access_count`, and
`total_sets` is incremented. -/
def set {V : Type} (serialize : V → Option String)
    (md5hex : String → String) (db : CacheDB) (key : String) (value : V)
    (ttl_seconds : Int) (now : Int) : Bool × CacheDB :=
  let db := maybe_cleanup db now
  let cache_key := generate_key md5hex key
  let expires_at := now + ttl_seconds
  match serialize value with
  | none => (false, db)
  | some value_json =>
    let row : CacheRow :=
      { value := value_json, created_at := now, expires_at := expires_at,
        access_count := 0, last_accessed := none }
    (true,
     { db with
        entries := upsert db.entries cache_key row
        stats := { db.stats with
          total_sets := db.stats.total_sets + 1
          last_updated := now } })

/-- `CacheManager.get` (lines 184-247).  A live row is a hit: its
access stats and `total_hits` are committed, then the stored text is
deserialized — `json.loads` is NOT inside the `except sqlite3.Error`
net, so a row that fails to decode escapes as an exception
(`Except.error`) after the hit was already counted.  A missing or
expired row is a miss and returns the Python `None` signal, which is
the same value `vnull` a stored null deserializes to. -/
def get {V : Type} (vnull : V) (deserialize : String → Option V)
    (md5hex : String → String) (db : CacheDB) (key : String) (now : Int) :
    Except Unit V × CacheDB :=
  let cache_key := generate_key md5hex key
  match findLive db.entries cache_key now with
  | some row =>
    let db' :=
      { db with
          entries := bumpAccess db.entries cache_key now
          stats := { db.stats with
            total_hits := db.stats.total_hits + 1
            last_updated := now }
          session_hits := db.session_hits + 1 }
    match deserialize row.value with
    | some v => (Except.ok v, db')
    | none => (Except.error (), db')
  | none =>
    (Except.ok vnull,
     { db with
        stats := { db.stats with
          total_misses := db.stats.total_misses + 1
          last_updated := now }
        session_misses := db.session_misses + 1 })

/-- `CacheManager.delete` (lines 249-277): removes the row for the
normalized key, reporting whether one was removed; stats untouched. -/
def delete (md5hex : String → String) (db : CacheDB) (key : String) :
    Bool × CacheDB :=
  let cache_key := generate_key md5hex key
  let remaining := db.entries.filter fun e => e.1 ≠ cache_key
  (remaining.length < db.entries.length, { db with entries := remaining })

/-- `CacheManager.clear` (lines 279-304): removes every row, returning
the count; stats untouched (in particular `total_evictions`). -/
def clear (db : CacheDB) : Nat × CacheDB :=
  (db.entries.length, { db with entries := [] })

/-- `CacheManager.get_or_set` (lines 412-440): `self.get` runs outside
the `try`, so a decode exception propagates; a `None` result (miss OR a
cached null) invokes the factory; a factory exception (`factory =
none`) is caught and returns `None`; a factory value is cached only
when it `is not None`. -/
def get_or_set {V : Type} [DecidableEq V] (vnull : V)
    (serialize : V → Option String) (deserialize : String → Option V)
    (md5hex : String → String) (db : CacheDB) (key : String)
    (factory : Option V) (ttl_seconds : Int) (now : Int) :
    Except Unit V × CacheDB :=
  let res := get vnull deserialize md5hex db key now
  match res.1 with
  | Except.error e => (Except.error e, res.2)
  | Except.ok value =>
    if value = vnull then
      match factory with
      | none => (Except.ok vnull, res.2)
      | some v' =>
        if v' = vnull then (Except.ok v', res.2)
        else (Except.ok v', (set serialize md5hex res.2 key v' ttl_seconds now).2)
    else (Except.ok value, res.2)

end CacheManager

/-!
Concrete serializers used to run the cache model on closed inputs
(standing in for the external `json` module and `hashlib.md5`).
-/

namespace WitnessInst

def idHash : String → String := fun s => s

def serNat : Nat → Option String := fun n => if n = 100 then some "100" else none

def deserNat : String → Option Nat := fun s => if s = "100" then some 100 else none

def serOptNat : Option Nat → Option String := fun v =>
  match v with
  | none => some "null"
  | some m => if m = 5 then some "5" else none

def deserOptNat : String → Option (Option Nat) := fun s =>
  if s = "null" then some none else if s = "5" then some (some 5) else none

end WitnessInst

namespace TokenManager

/-- The base64 alphabet as ASCII codes: `A`-`Z`, `a`-`z`, `0`-`9`,
`+`, `/`. -/
def b64chars : List Nat :=
  [65, 66, 67, 68, 69, 70, 71, 72, 73, 74, 75, 76, 77, 78, 79, 80, 81,
   82, 83, 84, 85, 86, 87, 88, 89, 90,
   97, 98, 99, 100, 101, 102, 103, 104, 105, 106, 107, 108, 109, 110,
   111, 112, 113, 114, 115, 116, 117, 118, 119, 120, 121, 122,
   48, 49, 50, 51, 52, 53, 54, 55, 56, 57, 43, 47]

/-- The alphabet character for a 6-bit group. -/
def b64char (n : Nat) : Nat := b64chars.getD n 0

/-- Position of a character in the alphabet (`none` when the character
is not a base64 character). -/
def indexIn : List Nat → Nat → Option Nat
  | [], _ => none
  | x :: xs, c => if x = c then some 0 else (indexIn xs c).map (· + 1)

/-- The 6-bit group encoded by an alphabet character. -/
def b64index (c : Nat) : Option Nat := indexIn b64chars c

/-- Standard base64 encoding of a byte sequence (the external
`base64.b64encode`): three bytes become four alphabet characters, a
final group of one or two bytes is padded with `=` (ASCII 61). -/
def b64encode : List Nat → List Nat
  | [] => []
  | [a] => [b64char (a / 4), b64char (a % 4 * 16), 61, 61]
  | [a, b] =>
    [b64char (a / 4), b64char (a % 4 * 16 + b / 16), b64char (b % 16 * 4), 61]
  | a :: b :: c :: rest =>
    b64char (a / 4) :: b64char (a % 4 * 16 + b / 16) ::
    b64char (b % 16 * 4 + c / 64) :: b64char (c % 64) :: b64encode rest

/-- Standard base64 decoding (the external `base64.b64decode` on the
canonical encodings produced by `b64encode`; a malformed input is
`none`, modelling the raised `binascii.Error`). -/
def b64decode : List Nat → Option (List Nat)
  | [] => some []
  | c1 :: c2 :: c3 :: c4 :: rest =>
    if c3 = 61 then
      if c4 = 61 ∧ rest = [] then
        (b64index c1).bind fun i1 =>
        (b64index c2).map fun i2 => [i1 * 4 + i2 / 16]
      else none
    else if c4 = 61 then
      if rest = [] then
        (b64index c1).bind fun i1 =>
        (b64index c2).bind fun i2 =>
        (b64index c3).map fun i3 =>
          [i1 * 4 + i2 / 16, i2 % 16 * 16 + i3 / 4]
      else none
    else
      (b64index c1).bind fun i1 =>
      (b64index c2).bind fun i2 =>
      (b64index c3).bind fun i3 =>
      (b64index c4).bind fun i4 =>
      (b64decode rest).map fun bs =>
        (i1 * 4 + i2 / 16) :: (i2 % 16 * 16 + i3 / 4) :: (i3 % 4 * 64 + i4) :: bs
  | _ => none

/-- `TokenManager._obfuscate` (lines 307-317), with strings modelled as
their UTF-8 byte sequences: base64-encode the token, reverse the
encoded text, and prepend the marker `OBF:` (bytes 79, 66, 70, 58). -/
def obfuscate (token : List Nat) : List Nat :=
  79 :: 66 :: 70 :: 58 :: (b64encode token).reverse

/-- `TokenManager._deobfuscate` (lines 319-330): an empty input yields
the empty string; an input with the `OBF:` marker is stripped, reversed
and base64-decoded, falling back to the input itself when decoding
fails; anything else is returned unchanged. -/
def deobfuscate (obfuscated : List Nat) : List Nat :=
  if obfuscated = [] then []
  else if obfuscated.take 4 = [79, 66, 70, 58] then
    match b64decode (obfuscated.drop 4).reverse with
    | some bs => bs
    | none => obfuscated
  else obfuscated

end TokenManager

namespace StateManager

theorem adjust_capital_of_none (db : StateDB) (amount : Rat) (ty reason : String)
    (rid : Option String) (now : Int) (h : db.capital_state = none) :
    adjust_capital db amount ty reason rid now = (false, db) := by
  simp [adjust_capital, h]

theorem adjust_capital_of_neg (db : StateDB) (row : CapitalStateRow) (amount : Rat)
    (ty reason : String) (rid : Option String) (now : Int)
    (h : db.capital_state = some row)
    (hneg : computedNewCapital row.current_capital amount ty < 0) :
    adjust_capital db amount ty reason rid now = (false, db) := by
  simp [adjust_capital, h, hneg]

theorem adjust_capital_of_invalid (db : StateDB) (row : CapitalStateRow) (amount : Rat)
    (ty reason : String) (rid : Option String) (now : Int)
    (h : db.capital_state = some row)
    (hneg : ¬ computedNewCapital row.current_capital amount ty < 0)
    (hty : ty ∉ validAdjustmentTypes) :
    adjust_capital db amount ty reason rid now = (false, db) := by
  simp [adjust_capital, h, hneg, hty]

theorem adjust_capital_of_success (db : StateDB) (row : CapitalStateRow) (amount : Rat)
    (ty reason : String) (rid : Option String) (now : Int)
    (h : db.capital_state = some row)
    (hneg : ¬ computedNewCapital row.current_capital amount ty < 0)
    (hty : ty ∈ validAdjustmentTypes) :
    adjust_capital db amount ty reason rid now =
      (true,
       { db with
          capital_state := some
            { row with
                current_capital := computedNewCapital row.current_capital amount ty
                available_capital := row.current_capital - row.allocated_capital
                last_updated := now }
          capital_adjustments := db.capital_adjustments ++
            [{ timestamp := now, adjustment_type := ty, amount := amount,
               previous_capital := row.current_capital,
               new_capital := computedNewCapital row.current_capital amount ty,
               reason := reason, reference_id := rid }] }) := by
  simp [adjust_capital, h, hneg, hty]

theorem capitalNonneg_adjust (db : StateDB) (amount : Rat) (ty reason : String)
    (rid : Option String) (now : Int) (h : capitalNonneg db) :
    capitalNonneg (adjust_capital db amount ty reason rid now).2 := by
  cases hcs : db.capital_state with
  | none => rw [adjust_capital_of_none db amount ty reason rid now hcs]; exact h
  | some row =>
    by_cases hneg : computedNewCapital row.current_capital amount ty < 0
    · rw [adjust_capital_of_neg db row amount ty reason rid now hcs hneg]; exact h
    · by_cases hty : ty ∈ validAdjustmentTypes
      · rw [adjust_capital_of_success db row amount ty reason rid now hcs hneg hty]
        intro cs hcseq
        simp only [Option.some.injEq] at hcseq
        rw [← hcseq]
        exact le_of_not_lt hneg
      · rw [adjust_capital_of_invalid db row amount ty reason rid now hcs hneg hty]; exact h

theorem capitalNonneg_run (calls : List AdjCall) :
    ∀ db : StateDB, capitalNonneg db → capitalNonneg (runAdjustments db calls) := by
  induction calls with
  | nil => intro db h; exact h
  | cons c cs ih =>
    intro db h
    exact ih _ (capitalNonneg_adjust db c.amount c.adjustment_type c.reason c.reference_id c.now h)

end StateManager

section ClaimC1

open StateManager

/-- C1 counterexample: `initialize_capital` accepts a negative initial
capital, so there is an initialized `StateManager` on which (with the
empty sequence of `adjust_capital` calls) `current_capital` is
negative. -/
theorem initialize_capital_negative_counterexample :
    (initialize_capital emptyStateDB (-100) "Initial setup" 0).1 = true ∧
    ((runAdjustments (initialize_capital emptyStateDB (-100) "Initial setup" 0).2
        []).capital_state.map CapitalStateRow.current_capital) = some (-100) ∧
    ((-100 : Rat) < 0) :=
  ⟨rfl, rfl, by norm_num⟩

/-- C1 (amended: the initial capital handed to `initialize_capital` is
nonnegative): any `adjust_capital` call whose computed new capital
would be below zero returns false and leaves the capital state and the
ledger unchanged, and over every sequence of `adjust_capital` calls on
a StateManager initialized with nonnegative capital, `current_capital`
is never negative. -/
theorem adjust_capital_nonneg :
    (∀ (db : StateDB) (amount : Rat) (ty reason : String) (rid : Option String)
        (now : Int) (cs : CapitalStateRow), db.capital_state = some cs →
        computedNewCapital cs.current_capital amount ty < 0 →
        adjust_capital db amount ty reason rid now = (false, db)) ∧
    (∀ (init : Rat) (reason : String) (t0 : Int) (calls : List AdjCall),
        0 ≤ init →
        capitalNonneg (runAdjustments (initialize_capital emptyStateDB init reason t0).2 calls)) := by
  constructor
  · intro db amount ty reason rid now cs hcs hneg
    exact adjust_capital_of_neg db cs amount ty reason rid now hcs hneg
  · intro init reason t0 calls hinit
    apply capitalNonneg_run
    intro cs hcs
    simp only [initialize_capital, emptyStateDB, Option.some.injEq] at hcs
    rw [← hcs]
    exact hinit

/-- Witness for C1 at concrete inputs: a withdrawal of 200 from capital
100 computes -100 < 0 and is rejected without mutation, and a run from
a nonnegative initialization keeps the capital nonnegative. -/
theorem adjust_capital_nonneg_witness :
    ((initialize_capital emptyStateDB 100 "Initial setup" 0).2.capital_state =
        some { current_capital := 100, initial_capital := 100, allocated_capital := 0,
               available_capital := 100, last_updated := 0 } ∧
      computedNewCapital 100 200 "WITHDRAWAL" < 0 ∧
      adjust_capital (initialize_capital emptyStateDB 100 "Initial setup" 0).2
          200 "WITHDRAWAL" "" none 1 =
        (false, (initialize_capital emptyStateDB 100 "Initial setup" 0).2)) ∧
    ((0 : Rat) ≤ 100 ∧
      capitalNonneg (runAdjustments (initialize_capital emptyStateDB 100 "Initial setup" 0).2
        [{ amount := 30, adjustment_type := "TRADE_LOSS", reason := "", reference_id := none,
           now := 1 }])) := by
  have h1 : computedNewCapital 100 200 "WITHDRAWAL" < 0 := by
    simp [computedNewCapital, pyAbs]
    norm_num
  have h0 : (0 : Rat) ≤ 100 := by norm_num
  exact ⟨⟨rfl, h1, adjust_capital_nonneg.1 _ 200 "WITHDRAWAL" "" none 1 _ rfl h1⟩,
    ⟨h0, adjust_capital_nonneg.2 100 "Initial setup" 0 _ h0⟩⟩

end ClaimC1

section ClaimC2

open StateManager

/-- C2 is refuted by the code: the SQL `UPDATE capital_state SET
current_capital = ?, available_capital = current_capital -
allocated_capital` evaluates `current_capital` on the right-hand side
against the pre-update row, so after a successful deposit of 50000 onto
an initial 100000 the singleton row holds `current_capital = 150000`
but `available_capital = 100000` (with `allocated_capital = 0`), and
`100000 ≠ 150000 - 0`. -/
theorem adjust_capital_available_capital_stale :
    (adjust_capital (initialize_capital emptyStateDB 100000 "Initial setup" 0).2
        50000 "DEPOSIT" "" none 1).1 = true ∧
    ((adjust_capital (initialize_capital emptyStateDB 100000 "Initial setup" 0).2
        50000 "DEPOSIT" "" none 1).2.capital_state.map
      CapitalStateRow.current_capital) = some 150000 ∧
    ((adjust_capital (initialize_capital emptyStateDB 100000 "Initial setup" 0).2
        50000 "DEPOSIT" "" none 1).2.capital_state.map
      CapitalStateRow.allocated_capital) = some 0 ∧
    ((adjust_capital (initialize_capital emptyStateDB 100000 "Initial setup" 0).2
        50000 "DEPOSIT" "" none 1).2.capital_state.map
      CapitalStateRow.available_capital) = some 100000 ∧
    (100000 : Rat) ≠ 150000 - 0 := by
  simp [adjust_capital, initialize_capital, emptyStateDB, computedNewCapital, pyAbs,
    validAdjustmentTypes]
  norm_num

end ClaimC2

section ClaimC4

open StateManager

/-- C4: `initialize_capital` is one-time: with an existing singleton
row it returns false and mutates nothing; a first successful call
writes the singleton row with `current_capital = initial_capital =
available_capital`, `allocated_capital = 0`, and appends exactly one
INITIAL_SETUP ledger row with `previous_capital = 0` and `new_capital`
the initial capital. -/
theorem initialize_capital_one_time :
    (∀ (db : StateDB) (init : Rat) (reason : String) (now : Int)
        (cs : CapitalStateRow), db.capital_state = some cs →
        initialize_capital db init reason now = (false, db)) ∧
    (∀ (db : StateDB) (init : Rat) (reason : String) (now : Int),
        db.capital_state = none →
        initialize_capital db init reason now =
          (true,
           { db with
              capital_state := some
                { current_capital := init, initial_capital := init,
                  allocated_capital := 0, available_capital := init,
                  last_updated := now }
              capital_adjustments := db.capital_adjustments ++
                [{ timestamp := now, adjustment_type := "INITIAL_SETUP",
                   amount := init, previous_capital := 0, new_capital := init,
                   reason := reason, reference_id := none }] })) := by
  constructor
  · intro db init reason now cs hcs
    unfold initialize_capital
    rw [hcs]
  · intro db init reason now hcs
    unfold initialize_capital
    rw [hcs]

/-- Witness for C4 at concrete inputs: a second `initialize_capital`
call on an initialized store returns false with the first call's state
untouched, and the first call on the empty store succeeds. -/
theorem initialize_capital_one_time_witness :
    initialize_capital (initialize_capital emptyStateDB 100 "setup" 0).2 200 "again" 1 =
      (false, (initialize_capital emptyStateDB 100 "setup" 0).2) ∧
    emptyStateDB.capital_state = none ∧
    initialize_capital emptyStateDB 100 "setup" 0 =
      (true,
       { emptyStateDB with
          capital_state := some
            { current_capital := 100, initial_capital := 100,
              allocated_capital := 0, available_capital := 100,
              last_updated := 0 }
          capital_adjustments :=
            [{ timestamp := 0, adjustment_type := "INITIAL_SETUP",
               amount := 100, previous_capital := 0, new_capital := 100,
               reason := "setup", reference_id := none }] }) :=
  ⟨initialize_capital_one_time.1 _ 200 "again" 1
      { current_capital := 100, initial_capital := 100, allocated_capital := 0,
        available_capital := 100, last_updated := 0 } rfl,
   rfl,
   initialize_capital_one_time.2 emptyStateDB 100 "setup" 0 rfl⟩

end ClaimC4

namespace StateManager

/-- The ledger-consistency invariant: the store is initialized and
replaying the ledger from its INITIAL_SETUP head reproduces the current
capital. -/
def ledgerConsistent (db : StateDB) : Prop :=
  ∃ cs, db.capital_state = some cs ∧
    replayLedger db.capital_adjustments = some cs.current_capital

theorem chainFrom_append (l : List AdjustmentRow) (c : Rat) (r : AdjustmentRow) :
    chainFrom c (l ++ [r]) =
      (chainFrom c l).bind fun d =>
        if r.previous_capital = d then some r.new_capital else none := by
  induction l generalizing c with
  | nil => simp [chainFrom]
  | cons x xs ih =>
    simp only [List.cons_append, chainFrom]
    by_cases hx : x.previous_capital = c
    · rw [if_pos hx, if_pos hx]
      exact ih _
    · rw [if_neg hx, if_neg hx]
      rfl

theorem replayLedger_append (l : List AdjustmentRow) (r : AdjustmentRow) (c : Rat)
    (h : replayLedger l = some c) :
    replayLedger (l ++ [r]) =
      if r.previous_capital = c then some r.new_capital else none := by
  cases l with
  | nil => simp [replayLedger] at h
  | cons x xs =>
    simp only [replayLedger, List.cons_append] at h ⊢
    by_cases hx : x.adjustment_type = "INITIAL_SETUP" ∧ x.previous_capital = 0
    · rw [if_pos hx] at h ⊢
      rw [chainFrom_append, h]
      rfl
    · rw [if_neg hx] at h
      exact absurd h (by simp)

theorem ledgerConsistent_adjust (db : StateDB) (amount : Rat) (ty reason : String)
    (rid : Option String) (now : Int) (h : ledgerConsistent db) :
    ledgerConsistent (adjust_capital db amount ty reason rid now).2 := by
  obtain ⟨cs, hcs, hrep⟩ := h
  by_cases hneg : computedNewCapital cs.current_capital amount ty < 0
  · rw [adjust_capital_of_neg db cs amount ty reason rid now hcs hneg]
    exact ⟨cs, hcs, hrep⟩
  · by_cases hty : ty ∈ validAdjustmentTypes
    · rw [adjust_capital_of_success db cs amount ty reason rid now hcs hneg hty]
      refine ⟨_, rfl, ?_⟩
      rw [replayLedger_append _ _ _ hrep]
      simp
    · rw [adjust_capital_of_invalid db cs amount ty reason rid now hcs hneg hty]
      exact ⟨cs, hcs, hrep⟩

theorem ledgerConsistent_run (calls : List AdjCall) :
    ∀ db : StateDB, ledgerConsistent db → ledgerConsistent (runAdjustments db calls) := by
  induction calls with
  | nil => intro db h; exact h
  | cons c cs ih =>
    intro db h
    exact ih _ (ledgerConsistent_adjust db c.amount c.adjustment_type c.reason c.reference_id c.now h)

theorem ledgerConsistent_of_setup (init : Rat) (reason : String) (t0 : Int) :
    ledgerConsistent (initialize_capital emptyStateDB init reason t0).2 := by
  refine ⟨_, rfl, ?_⟩
  simp [initialize_capital, emptyStateDB, replayLedger, chainFrom]

end StateManager

section ClaimC3

open StateManager

/-- C3: a successful `adjust_capital` computes the new capital by the
sign convention (DEPOSIT/TRADE_PROFIT add `abs(amount)`,
WITHDRAWAL/TRADE_LOSS subtract `abs(amount)`, MANUAL_ADJUSTMENT adds
the signed amount), appends one ledger row recording exactly the
previous and new capital, and after any initialize-then-adjust call
sequence, replaying the ledger from the INITIAL_SETUP row in order
reproduces `CapitalState.current_capital`. -/
theorem adjust_capital_ledger_consistency :
    (∀ (db : StateDB) (amount : Rat) (ty reason : String) (rid : Option String)
        (now : Int) (cs : CapitalStateRow), db.capital_state = some cs →
        (adjust_capital db amount ty reason rid now).1 = true →
        ∃ cs', (adjust_capital db amount ty reason rid now).2.capital_state = some cs' ∧
          ((ty = "DEPOSIT" ∨ ty = "TRADE_PROFIT") →
            cs'.current_capital = cs.current_capital + pyAbs amount) ∧
          ((ty = "WITHDRAWAL" ∨ ty = "TRADE_LOSS") →
            cs'.current_capital = cs.current_capital - pyAbs amount) ∧
          (ty = "MANUAL_ADJUSTMENT" →
            cs'.current_capital = cs.current_capital + amount) ∧
          (adjust_capital db amount ty reason rid now).2.capital_adjustments =
            db.capital_adjustments ++
              [{ timestamp := now, adjustment_type := ty, amount := amount,
                 previous_capital := cs.current_capital,
                 new_capital := cs'.current_capital, reason := reason,
                 reference_id := rid }]) ∧
    (∀ (init : Rat) (reason : String) (t0 : Int) (calls : List AdjCall),
        ∃ cs,
          (runAdjustments (initialize_capital emptyStateDB init reason t0).2 calls).capital_state
              = some cs ∧
          replayLedger
            (runAdjustments (initialize_capital emptyStateDB init reason t0).2 calls).capital_adjustments
              = some cs.current_capital) := by
  constructor
  · intro db amount ty reason rid now cs hcs hok
    by_cases hneg : computedNewCapital cs.current_capital amount ty < 0
    · rw [adjust_capital_of_neg db cs amount ty reason rid now hcs hneg] at hok
      exact absurd hok (by simp)
    · by_cases hty : ty ∈ validAdjustmentTypes
      · rw [adjust_capital_of_success db cs amount ty reason rid now hcs hneg hty]
        refine ⟨_, rfl, ?_, ?_, ?_, rfl⟩
        · intro hd
          simp only [computedNewCapital]
          rw [if_pos hd]
        · intro hw
          have hd : ¬ (ty = "DEPOSIT" ∨ ty = "TRADE_PROFIT") := by
            rcases hw with hw | hw <;> rw [hw] <;> simp
          simp only [computedNewCapital]
          rw [if_neg hd, if_pos hw]
        · intro hm
          have hd : ¬ (ty = "DEPOSIT" ∨ ty = "TRADE_PROFIT") := by rw [hm]; simp
          have hw : ¬ (ty = "WITHDRAWAL" ∨ ty = "TRADE_LOSS") := by rw [hm]; simp
          simp only [computedNewCapital]
          rw [if_neg hd, if_neg hw]
      · rw [adjust_capital_of_invalid db cs amount ty reason rid now hcs hneg hty] at hok
        exact absurd hok (by simp)
  · intro init reason t0 calls
    exact ledgerConsistent_run calls _ (ledgerConsistent_of_setup init reason t0)

/-- Witness for C3 at concrete inputs: the spec's scenario
`initialize_capital(500000)` then `adjust_capital(2000, TRADE_PROFIT)`
succeeds, yields capital 502000 with the matching ledger row, and the
ledger replays to 502000. -/
theorem adjust_capital_ledger_consistency_witness :
    ((initialize_capital emptyStateDB 500000 "Initial setup" 0).2.capital_state =
      some { current_capital := 500000, initial_capital := 500000,
             allocated_capital := 0, available_capital := 500000,
             last_updated := 0 }) ∧
    ((adjust_capital (initialize_capital emptyStateDB 500000 "Initial setup" 0).2
        2000 "TRADE_PROFIT" "" none 1).1 = true) ∧
    (∃ cs', (adjust_capital (initialize_capital emptyStateDB 500000 "Initial setup" 0).2
        2000 "TRADE_PROFIT" "" none 1).2.capital_state = some cs' ∧
      cs'.current_capital = 500000 + pyAbs 2000) ∧
    (∃ cs,
      (runAdjustments (initialize_capital emptyStateDB 500000 "Initial setup" 0).2
        [{ amount := 2000, adjustment_type := "TRADE_PROFIT", reason := "",
           reference_id := none, now := 1 }]).capital_state = some cs ∧
      replayLedger
        (runAdjustments (initialize_capital emptyStateDB 500000 "Initial setup" 0).2
          [{ amount := 2000, adjustment_type := "TRADE_PROFIT", reason := "",
             reference_id := none, now := 1 }]).capital_adjustments
        = some cs.current_capital) := by
  have hok : (adjust_capital (initialize_capital emptyStateDB 500000 "Initial setup" 0).2
      2000 "TRADE_PROFIT" "" none 1).1 = true := by
    simp [adjust_capital, initialize_capital, emptyStateDB, computedNewCapital, pyAbs,
      validAdjustmentTypes]
    norm_num
  refine ⟨rfl, hok, ?_, adjust_capital_ledger_consistency.2 500000 "Initial setup" 0 _⟩
  obtain ⟨cs', hcs', hdep, -, -, -⟩ :=
    adjust_capital_ledger_consistency.1 _ 2000 "TRADE_PROFIT" "" none 1 _ rfl hok
  exact ⟨cs', hcs', hdep (Or.inr rfl)⟩

end ClaimC3

namespace StateManager

theorem findSession_append_of_none (l : List SessionRow) (r : SessionRow) (d : Int)
    (h : findSession l d = none) (hr : r.session_date = d) :
    findSession (l ++ [r]) d = some r := by
  induction l with
  | nil => simp [findSession, hr]
  | cons x xs ih =>
    simp only [findSession, List.cons_append] at h ⊢
    by_cases hx : x.session_date = d
    · rw [if_pos hx] at h
      exact absurd h (by simp)
    · rw [if_neg hx] at h ⊢
      exact ih h

end StateManager

section ClaimC8

open StateManager

/-- C8: `get_or_create_session` is idempotent per calendar date: with
an existing row for the date it returns that row and mutates nothing;
a first call creates the row with `starting_capital` snapshotted from
the current capital state (0 when uninitialized) and zeroed counters;
hence a second call for the same date returns the first call's row
unchanged (in particular `trades_count` is not reset). -/
theorem get_or_create_session_idempotent :
    (∀ (db : StateDB) (d now : Int) (row : SessionRow),
        findSession db.session_state d = some row →
        get_or_create_session db d now = (row, db)) ∧
    (∀ (db : StateDB) (d now : Int),
        findSession db.session_state d = none →
        get_or_create_session db d now =
          ({ session_date := d, starting_capital := startingCapitalSnapshot db,
             realized_pnl := 0, unrealized_pnl := 0, trades_count := 0,
             winning_trades := 0, losing_trades := 0,
             circuit_breaker_triggered := 0, session_notes := none,
             created_at := now, updated_at := now },
           { db with session_state := db.session_state ++
              [{ session_date := d, starting_capital := startingCapitalSnapshot db,
                 realized_pnl := 0, unrealized_pnl := 0, trades_count := 0,
                 winning_trades := 0, losing_trades := 0,
                 circuit_breaker_triggered := 0, session_notes := none,
                 created_at := now, updated_at := now }] })) ∧
    (∀ (db : StateDB) (d n1 n2 : Int),
        get_or_create_session (get_or_create_session db d n1).2 d n2 =
          ((get_or_create_session db d n1).1, (get_or_create_session db d n1).2)) := by
  have hsome : ∀ (db : StateDB) (d now : Int) (row : SessionRow),
      findSession db.session_state d = some row →
      get_or_create_session db d now = (row, db) := by
    intro db d now row h
    simp [get_or_create_session, h]
  have hnone : ∀ (db : StateDB) (d now : Int),
      findSession db.session_state d = none →
      get_or_create_session db d now =
        ({ session_date := d, starting_capital := startingCapitalSnapshot db,
           realized_pnl := 0, unrealized_pnl := 0, trades_count := 0,
           winning_trades := 0, losing_trades := 0,
           circuit_breaker_triggered := 0, session_notes := none,
           created_at := now, updated_at := now },
         { db with session_state := db.session_state ++
            [{ session_date := d, starting_capital := startingCapitalSnapshot db,
               realized_pnl := 0, unrealized_pnl := 0, trades_count := 0,
               winning_trades := 0, losing_trades := 0,
               circuit_breaker_triggered := 0, session_notes := none,
               created_at := now, updated_at := now }] }) := by
    intro db d now h
    simp [get_or_create_session, h]
  refine ⟨hsome, hnone, ?_⟩
  intro db d n1 n2
  cases h : findSession db.session_state d with
  | some row =>
    rw [hsome db d n1 row h]
    exact hsome db d n2 row h
  | none =>
    rw [hnone db d n1 h]
    exact hsome _ d n2 _ (findSession_append_of_none _ _ _ h rfl)

/-- Witness for C8 at concrete inputs: on the empty store the first
call for date 7 creates the zero-capital row and the second call
returns it unchanged. -/
theorem get_or_create_session_idempotent_witness :
    (findSession emptyStateDB.session_state 7 = none) ∧
    (get_or_create_session emptyStateDB 7 10 =
      ({ session_date := 7, starting_capital := startingCapitalSnapshot emptyStateDB,
         realized_pnl := 0, unrealized_pnl := 0, trades_count := 0,
         winning_trades := 0, losing_trades := 0, circuit_breaker_triggered := 0,
         session_notes := none, created_at := 10, updated_at := 10 },
       { emptyStateDB with session_state :=
          [{ session_date := 7, starting_capital := startingCapitalSnapshot emptyStateDB,
             realized_pnl := 0, unrealized_pnl := 0, trades_count := 0,
             winning_trades := 0, losing_trades := 0, circuit_breaker_triggered := 0,
             session_notes := none, created_at := 10, updated_at := 10 }] })) ∧
    (get_or_create_session (get_or_create_session emptyStateDB 7 10).2 7 20 =
      ((get_or_create_session emptyStateDB 7 10).1,
       (get_or_create_session emptyStateDB 7 10).2)) :=
  ⟨rfl,
   get_or_create_session_idempotent.2.1 emptyStateDB 7 10 rfl,
   get_or_create_session_idempotent.2.2 emptyStateDB 7 10 20⟩

end ClaimC8

section ClaimC6

/-- C6 is refuted by the code: both stores wrap their bodies in
`except sqlite3.Error` only, so `json` failures escape the public
methods.  Evaluated here at the failing inputs: a `StateManager.set`
whose value does not serialize (`json.dumps` raising, e.g. on a
self-referential dict) escapes as an exception instead of returning
false, and a `CacheManager.get` on a live row whose stored text does
not decode (`json.loads` raising on a corrupt value) escapes instead of
degrading to absent — after the hit was already counted. -/
theorem store_serialization_errors_escape :
    (StateManager.set (fun _ : Unit => (none : Option String)) (fun _ => "dict")
        StateManager.emptyStateDB "k" () 0 = Except.error ()) ∧
    ((CacheManager.get 0 (fun _ : String => (none : Option Nat)) (fun s => s)
        { entries := [("k", { value := "not-json", created_at := 0, expires_at := 10,
                              access_count := 0, last_accessed := none })],
          stats := { total_hits := 0, total_misses := 0, total_sets := 0,
                     total_evictions := 0, last_updated := 0 },
          last_cleanup := 0, cleanup_interval := 300,
          session_hits := 0, session_misses := 0 } "k" 5).1 = Except.error ()) ∧
    ((CacheManager.get 0 (fun _ : String => (none : Option Nat)) (fun s => s)
        { entries := [("k", { value := "not-json", created_at := 0, expires_at := 10,
                              access_count := 0, last_accessed := none })],
          stats := { total_hits := 0, total_misses := 0, total_sets := 0,
                     total_evictions := 0, last_updated := 0 },
          last_cleanup := 0, cleanup_interval := 300,
          session_hits := 0, session_misses := 0 } "k" 5).2.stats.total_hits = 1) := by
  refine ⟨rfl, ?_, ?_⟩ <;> decide

end ClaimC6

namespace CacheManager

theorem findRow_upsert_self (es : List (String × CacheRow)) (k : String) (r : CacheRow) :
    findRow (upsert es k r) k = some r := by
  induction es with
  | nil => simp [upsert, findRow]
  | cons e es ih =>
    simp only [upsert]
    by_cases he : e.1 = k
    · rw [if_pos he]
      simp [findRow]
    · rw [if_neg he]
      simp only [findRow, if_neg he]
      exact ih

theorem findRow_bumpAccess (es : List (String × CacheRow)) (k : String) (now : Int) :
    findRow (bumpAccess es k now) k =
      (findRow es k).map fun r =>
        { r with access_count := r.access_count + 1, last_accessed := some now } := by
  induction es with
  | nil => simp [bumpAccess, findRow]
  | cons e es ih =>
    simp only [bumpAccess, List.map_cons]
    by_cases he : e.1 = k
    · rw [if_pos he]
      simp [findRow, he]
    · rw [if_neg he]
      simp only [findRow, if_neg he]
      exact ih

theorem get_of_hit {V : Type} (vnull : V) (deserialize : String → Option V)
    (md5hex : String → String) (db : CacheDB) (key : String) (now : Int)
    (row : CacheRow)
    (h : findLive db.entries (generate_key md5hex key) now = some row) :
    get vnull deserialize md5hex db key now =
      (match deserialize row.value with
       | some v => Except.ok v
       | none => Except.error (),
       { db with
          entries := bumpAccess db.entries (generate_key md5hex key) now
          stats := { db.stats with
            total_hits := db.stats.total_hits + 1
            last_updated := now }
          session_hits := db.session_hits + 1 }) := by
  simp only [get, h]
  cases deserialize row.value <;> rfl

theorem get_of_miss {V : Type} (vnull : V) (deserialize : String → Option V)
    (md5hex : String → String) (db : CacheDB) (key : String) (now : Int)
    (h : findLive db.entries (generate_key md5hex key) now = none) :
    get vnull deserialize md5hex db key now =
      (Except.ok vnull,
       { db with
          stats := { db.stats with
            total_misses := db.stats.total_misses + 1
            last_updated := now }
          session_misses := db.session_misses + 1 }) := by
  simp only [get, h]

theorem set_of_serialized {V : Type} (serialize : V → Option String)
    (md5hex : String → String) (db : CacheDB) (key : String) (value : V)
    (ttl_seconds now : Int) (sv : String) (h : serialize value = some sv) :
    set serialize md5hex db key value ttl_seconds now =
      (true,
       { maybe_cleanup db now with
          entries := upsert (maybe_cleanup db now).entries (generate_key md5hex key)
            { value := sv, created_at := now, expires_at := now + ttl_seconds,
              access_count := 0, last_accessed := none }
          stats := { (maybe_cleanup db now).stats with
            total_sets := (maybe_cleanup db now).stats.total_sets + 1
            last_updated := now } }) := by
  unfold set
  rw [h]

theorem set_of_unserializable {V : Type} (serialize : V → Option String)
    (md5hex : String → String) (db : CacheDB) (key : String) (value : V)
    (ttl_seconds now : Int) (h : serialize value = none) :
    set serialize md5hex db key value ttl_seconds now = (false, maybe_cleanup db now) := by
  unfold set
  rw [h]

theorem cleanup_expired_stats (db : CacheDB) (now : Int) :
    (cleanup_expired db now).1 =
      (db.entries.filter fun e => e.2.expires_at ≤ now).length ∧
    (cleanup_expired db now).2.stats.total_evictions =
      db.stats.total_evictions + (cleanup_expired db now).1 ∧
    (cleanup_expired db now).2.stats.total_hits = db.stats.total_hits ∧
    (cleanup_expired db now).2.stats.total_misses = db.stats.total_misses ∧
    (cleanup_expired db now).2.stats.total_sets = db.stats.total_sets := by
  simp only [cleanup_expired]
  by_cases h : ((db.entries.filter fun e => e.2.expires_at ≤ now).length) > 0
  · rw [if_pos h]
    exact ⟨rfl, rfl, rfl, rfl, rfl⟩
  · rw [if_neg h]
    have hlen := Nat.eq_zero_of_not_pos h
    refine ⟨rfl, ?_, rfl, rfl, rfl⟩
    rw [hlen]
    rfl

theorem maybe_cleanup_stats (db : CacheDB) (now : Int) :
    (maybe_cleanup db now).stats.total_sets = db.stats.total_sets ∧
    (maybe_cleanup db now).stats.total_hits = db.stats.total_hits ∧
    (maybe_cleanup db now).stats.total_misses = db.stats.total_misses ∧
    db.stats.total_evictions ≤ (maybe_cleanup db now).stats.total_evictions := by
  unfold maybe_cleanup
  by_cases h : now - db.last_cleanup > db.cleanup_interval
  · obtain ⟨h1, h2, h3, h4, h5⟩ := cleanup_expired_stats db now
    rw [if_pos h]
    exact ⟨h5, h3, h4, by rw [h2]; exact Nat.le_add_right _ _⟩
  · rw [if_neg h]
    exact ⟨rfl, rfl, rfl, Nat.le_refl _⟩

end CacheManager

section ClaimC5

open CacheManager

/-- C5: `get` returns the stored deserialized value exactly when a live
row (`expires_at > now`) exists for the normalized key — an expired but
unswept row is a miss — and hence after `set(k, v, ttl)` at time `n`,
`get(k)` returns `v` at any time before `n + ttl` and absent from
`n + ttl` on, independent of sweeps. -/
theorem cache_get_ttl {V : Type} (vnull : V) (deserialize : String → Option V)
    (md5hex : String → String) :
    (∀ (db : CacheDB) (key : String) (now : Int) (row : CacheRow) (v : V),
        findLive db.entries (generate_key md5hex key) now = some row →
        deserialize row.value = some v →
        (get vnull deserialize md5hex db key now).1 = Except.ok v) ∧
    (∀ (db : CacheDB) (key : String) (now : Int),
        findLive db.entries (generate_key md5hex key) now = none →
        (get vnull deserialize md5hex db key now).1 = Except.ok vnull) ∧
    (∀ (db : CacheDB) (key : String) (now : Int) (row : CacheRow),
        findRow db.entries (generate_key md5hex key) = some row →
        row.expires_at ≤ now →
        (get vnull deserialize md5hex db key now).1 = Except.ok vnull) ∧
    (∀ (serialize : V → Option String) (db : CacheDB) (key : String) (value : V)
        (sv : String) (ttl n t' : Int),
        serialize value = some sv → deserialize sv = some value →
        ((t' < n + ttl →
            (get vnull deserialize md5hex
              (set serialize md5hex db key value ttl n).2 key t').1 = Except.ok value) ∧
         (n + ttl ≤ t' →
            (get vnull deserialize md5hex
              (set serialize md5hex db key value ttl n).2 key t').1 = Except.ok vnull))) := by
  refine ⟨?_, ?_, ?_, ?_⟩
  · intro db key now row v h hd
    rw [get_of_hit vnull deserialize md5hex db key now row h]
    rw [hd]
  · intro db key now h
    rw [get_of_miss vnull deserialize md5hex db key now h]
  · intro db key now row hrow hexp
    have hlive : findLive db.entries (generate_key md5hex key) now = none := by
      unfold findLive
      rw [hrow]
      exact if_neg (not_lt.mpr hexp)
    rw [get_of_miss vnull deserialize md5hex db key now hlive]
  · intro serialize db key value sv ttl n t' hs hd
    have hrow : findRow (set serialize md5hex db key value ttl n).2.entries
        (generate_key md5hex key) =
        some { value := sv, created_at := n, expires_at := n + ttl,
               access_count := 0, last_accessed := none } := by
      rw [set_of_serialized serialize md5hex db key value ttl n sv hs]
      exact findRow_upsert_self _ _ _
    constructor
    · intro hlt
      have hlive : findLive (set serialize md5hex db key value ttl n).2.entries
          (generate_key md5hex key) t' =
          some { value := sv, created_at := n, expires_at := n + ttl,
                 access_count := 0, last_accessed := none } := by
        unfold findLive
        rw [hrow]
        exact if_pos hlt
      rw [get_of_hit vnull deserialize md5hex _ key t' _ hlive]
      rw [hd]
    · intro hge
      have hlive : findLive (set serialize md5hex db key value ttl n).2.entries
          (generate_key md5hex key) t' = none := by
        unfold findLive
        rw [hrow]
        exact if_neg (not_lt.mpr hge)
      rw [get_of_miss vnull deserialize md5hex _ key t' hlive]

/-- Witness for C5 at concrete inputs: `set("quote:NIFTY", 100, ttl=5)`
at time 10, then `get` at time 14 returns the value and `get` at time
15 returns the absent signal. -/
theorem cache_get_ttl_witness :
    WitnessInst.serNat 100 = some "100" ∧
    WitnessInst.deserNat "100" = some 100 ∧
    ((14 : Int) < 10 + 5) ∧ ((10 : Int) + 5 ≤ 15) ∧
    (get 0 WitnessInst.deserNat WitnessInst.idHash
      (set WitnessInst.serNat WitnessInst.idHash (initCacheDB 0 300)
        "quote:NIFTY" 100 5 10).2 "quote:NIFTY" 14).1 = Except.ok 100 ∧
    (get 0 WitnessInst.deserNat WitnessInst.idHash
      (set WitnessInst.serNat WitnessInst.idHash (initCacheDB 0 300)
        "quote:NIFTY" 100 5 10).2 "quote:NIFTY" 15).1 = Except.ok 0 :=
  ⟨rfl, rfl, by decide, by decide,
   ((cache_get_ttl 0 WitnessInst.deserNat WitnessInst.idHash).2.2.2
      WitnessInst.serNat (initCacheDB 0 300) "quote:NIFTY" 100 "100" 5 10 14
      rfl rfl).1 (by decide),
   ((cache_get_ttl 0 WitnessInst.deserNat WitnessInst.idHash).2.2.2
      WitnessInst.serNat (initCacheDB 0 300) "quote:NIFTY" 100 "100" 5 10 15
      rfl rfl).2 (by decide)⟩

end ClaimC5

section ClaimC7

open CacheManager

/-- C7 counterexample: a `set` call whose value fails to serialize (the
`json.dumps` `except` path, no storage error involved) returns false
and does not increment `total_sets`, so "every set call increments
total_sets by exactly one" fails. -/
theorem cache_set_total_sets_counterexample :
    (CacheManager.set (fun _ : Unit => (none : Option String)) WitnessInst.idHash
        (initCacheDB 0 300) "k" () 60 10).1 = false ∧
    (CacheManager.set (fun _ : Unit => (none : Option String)) WitnessInst.idHash
        (initCacheDB 0 300) "k" () 60 10).2.stats.total_sets = 0 ∧
    (0 : Nat) ≠ 1 := by
  decide

/-- C7 (amended: only a `set` call that serializes its value — i.e.
returns true — increments `total_sets`; a set whose serialization fails
leaves it unchanged): in the storage-error-free model, every `get`
increments exactly one of `total_hits`/`total_misses`, each sweep adds
exactly the number of expired rows it removed to `total_evictions`, and
no operation decreases any counter (`delete` and `clear` touch none). -/
theorem cache_stats_monotonic {V : Type} (vnull : V)
    (serialize : V → Option String) (deserialize : String → Option V)
    (md5hex : String → String) :
    (∀ (db : CacheDB) (key : String) (now : Int),
        (get vnull deserialize md5hex db key now).2.stats.total_hits +
          (get vnull deserialize md5hex db key now).2.stats.total_misses =
          db.stats.total_hits + db.stats.total_misses + 1 ∧
        db.stats.total_hits ≤ (get vnull deserialize md5hex db key now).2.stats.total_hits ∧
        db.stats.total_misses ≤ (get vnull deserialize md5hex db key now).2.stats.total_misses ∧
        (get vnull deserialize md5hex db key now).2.stats.total_sets = db.stats.total_sets ∧
        (get vnull deserialize md5hex db key now).2.stats.total_evictions =
          db.stats.total_evictions) ∧
    (∀ (db : CacheDB) (key : String) (value : V) (ttl now : Int),
        (set serialize md5hex db key value ttl now).2.stats.total_sets =
          db.stats.total_sets +
            (if (set serialize md5hex db key value ttl now).1 = true then 1 else 0) ∧
        (set serialize md5hex db key value ttl now).2.stats.total_hits =
          db.stats.total_hits ∧
        (set serialize md5hex db key value ttl now).2.stats.total_misses =
          db.stats.total_misses ∧
        db.stats.total_evictions ≤
          (set serialize md5hex db key value ttl now).2.stats.total_evictions) ∧
    (∀ (db : CacheDB) (now : Int),
        (cleanup_expired db now).1 =
          (db.entries.filter fun e => e.2.expires_at ≤ now).length ∧
        (cleanup_expired db now).2.stats.total_evictions =
          db.stats.total_evictions + (cleanup_expired db now).1 ∧
        (cleanup_expired db now).2.stats.total_hits = db.stats.total_hits ∧
        (cleanup_expired db now).2.stats.total_misses = db.stats.total_misses ∧
        (cleanup_expired db now).2.stats.total_sets = db.stats.total_sets) ∧
    (∀ (db : CacheDB) (key : String), (delete md5hex db key).2.stats = db.stats) ∧
    (∀ db : CacheDB, (clear db).2.stats = db.stats) := by
  refine ⟨?_, ?_, fun db now => cleanup_expired_stats db now, fun db key => rfl, fun db => rfl⟩
  · intro db key now
    cases h : findLive db.entries (generate_key md5hex key) now with
    | some row =>
      rw [get_of_hit vnull deserialize md5hex db key now row h]
      refine ⟨Nat.add_right_comm _ 1 _, Nat.le_succ _, Nat.le_refl _, rfl, rfl⟩
    | none =>
      rw [get_of_miss vnull deserialize md5hex db key now h]
      refine ⟨rfl, Nat.le_refl _, Nat.le_succ _, rfl, rfl⟩
  · intro db key value ttl now
    obtain ⟨m1, m2, m3, m4⟩ := maybe_cleanup_stats db now
    cases hs : serialize value with
    | none =>
      rw [set_of_unserializable serialize md5hex db key value ttl now hs]
      refine ⟨?_, m2, m3, m4⟩
      simp [m1]
    | some sv =>
      rw [set_of_serialized serialize md5hex db key value ttl now sv hs]
      refine ⟨?_, m2, m3, m4⟩
      simp [m1]

end ClaimC7

section ClaimC10

open CacheManager

/-- C10: a cached null is indistinguishable from a miss at the public
interface: `set(k, None, ttl)` succeeds; a `get` within the TTL returns
the absent signal `None` while still counting a hit and bumping the
row's `access_count`; consequently `get_or_set` invokes (and caches)
the factory despite the live null entry; and a factory returning
`None` on a miss is not cached. -/
theorem cache_null_value_miss {V : Type} [DecidableEq V] (vnull : V)
    (serialize : V → Option String) (deserialize : String → Option V)
    (md5hex : String → String) (sn : String)
    (hs : serialize vnull = some sn) (hd : deserialize sn = some vnull) :
    ∀ (db : CacheDB) (key : String) (ttl n t' : Int), t' < n + ttl →
      ((set serialize md5hex db key vnull ttl n).1 = true) ∧
      ((get vnull deserialize md5hex
          (set serialize md5hex db key vnull ttl n).2 key t').1 = Except.ok vnull) ∧
      ((get vnull deserialize md5hex
          (set serialize md5hex db key vnull ttl n).2 key t').2.stats.total_hits =
        (set serialize md5hex db key vnull ttl n).2.stats.total_hits + 1) ∧
      (findRow (get vnull deserialize md5hex
          (set serialize md5hex db key vnull ttl n).2 key t').2.entries
          (generate_key md5hex key) =
        some { value := sn, created_at := n, expires_at := n + ttl,
               access_count := 1, last_accessed := some t' }) ∧
      (∀ (w : V) (sw : String), w ≠ vnull → serialize w = some sw →
        (get_or_set vnull serialize deserialize md5hex
            (set serialize md5hex db key vnull ttl n).2 key (some w) ttl t').1 =
          Except.ok w ∧
        findRow (get_or_set vnull serialize deserialize md5hex
            (set serialize md5hex db key vnull ttl n).2 key (some w) ttl t').2.entries
            (generate_key md5hex key) =
          some { value := sw, created_at := t', expires_at := t' + ttl,
                 access_count := 0, last_accessed := none }) ∧
      (∀ (db0 : CacheDB) (k0 : String) (t0 : Int),
          findLive db0.entries (generate_key md5hex k0) t0 = none →
          (get_or_set vnull serialize deserialize md5hex db0 k0 (some vnull) ttl t0).1 =
            Except.ok vnull ∧
          (get_or_set vnull serialize deserialize md5hex db0 k0 (some vnull) ttl t0).2.entries =
            db0.entries) := by
  intro db key ttl n t' hlt
  have hseteq := set_of_serialized serialize md5hex db key vnull ttl n sn hs
  have hrow : findRow (set serialize md5hex db key vnull ttl n).2.entries
      (generate_key md5hex key) =
      some { value := sn, created_at := n, expires_at := n + ttl,
             access_count := 0, last_accessed := none } := by
    rw [hseteq]
    exact findRow_upsert_self _ _ _
  have hlive : findLive (set serialize md5hex db key vnull ttl n).2.entries
      (generate_key md5hex key) t' =
      some { value := sn, created_at := n, expires_at := n + ttl,
             access_count := 0, last_accessed := none } := by
    unfold findLive
    rw [hrow]
    exact if_pos hlt
  have hget := get_of_hit vnull deserialize md5hex
    (set serialize md5hex db key vnull ttl n).2 key t' _ hlive
  refine ⟨by rw [hseteq], ?_, ?_, ?_, ?_, ?_⟩
  · rw [hget, hd]
  · rw [hget]
  · rw [hget]
    rw [findRow_bumpAccess, hrow]
    rfl
  · intro w sw hw hsw
    have hgos : get_or_set vnull serialize deserialize md5hex
        (set serialize md5hex db key vnull ttl n).2 key (some w) ttl t' =
        (Except.ok w,
         (set serialize md5hex
            (get vnull deserialize md5hex
              (set serialize md5hex db key vnull ttl n).2 key t').2 key w ttl t').2) := by
      unfold get_or_set
      rw [hget]
      simp [hd, hw]
    constructor
    · rw [hgos]
    · rw [hgos]
      rw [set_of_serialized serialize md5hex _ key w ttl t' sw hsw]
      exact findRow_upsert_self _ _ _
  · intro db0 k0 t0 h0
    have hget0 := get_of_miss vnull deserialize md5hex db0 k0 t0 h0
    have hgos : get_or_set vnull serialize deserialize md5hex db0 k0 (some vnull) ttl t0 =
        (Except.ok vnull, (get vnull deserialize md5hex db0 k0 t0).2) := by
      unfold get_or_set
      rw [hget0]
      simp
    rw [hgos, hget0]
    exact ⟨rfl, rfl⟩

/-- Witness for C10 at concrete inputs: a stored null under key `k`
with ttl 60 set at time 1 is reported absent by `get` at time 2 while
counting a hit, and `get_or_set` re-invokes its factory. -/
theorem cache_null_value_miss_witness :
    WitnessInst.serOptNat none = some "null" ∧
    WitnessInst.deserOptNat "null" = some none ∧
    ((2 : Int) < 1 + 60) ∧
    (set WitnessInst.serOptNat WitnessInst.idHash (initCacheDB 0 300) "k" none 60 1).1 = true ∧
    (get (none : Option Nat) WitnessInst.deserOptNat WitnessInst.idHash
      (set WitnessInst.serOptNat WitnessInst.idHash (initCacheDB 0 300) "k" none 60 1).2
      "k" 2).1 = Except.ok none ∧
    (get_or_set (none : Option Nat) WitnessInst.serOptNat WitnessInst.deserOptNat
      WitnessInst.idHash
      (set WitnessInst.serOptNat WitnessInst.idHash (initCacheDB 0 300) "k" none 60 1).2
      "k" (some (some 5)) 60 2).1 = Except.ok (some 5) := by
  have h := cache_null_value_miss (none : Option Nat) WitnessInst.serOptNat
    WitnessInst.deserOptNat WitnessInst.idHash "null" rfl rfl
    (initCacheDB 0 300) "k" 60 1 2 (by decide)
  exact ⟨rfl, rfl, by decide, h.1, h.2.1,
    (h.2.2.2.2.1 (some 5) "5" (by decide) rfl).1⟩

end ClaimC10

namespace TokenManager

theorem b64index_b64char : ∀ n : Nat, n < 64 → b64index (b64char n) = some n := by
  decide

theorem b64char_ne_61 : ∀ n : Nat, n < 64 → b64char n ≠ 61 := by
  decide

theorem b64decode_encode : ∀ (l : List Nat), (∀ b ∈ l, b < 256) →
    b64decode (b64encode l) = some l
  | [], _ => rfl
  | [a], h => by
    have ha : a < 256 := h a (by simp)
    have h1 : a / 4 < 64 := by omega
    have h2 : a % 4 * 16 < 64 := by omega
    have e1 := b64index_b64char _ h1
    have e2 := b64index_b64char _ h2
    simp [b64encode, b64decode, e1, e2]
    all_goals omega
  | [a, b], h => by
    have ha : a < 256 := h a (by simp)
    have hb : b < 256 := h b (by simp)
    have h1 : a / 4 < 64 := by omega
    have h2 : a % 4 * 16 + b / 16 < 64 := by omega
    have h3 : b % 16 * 4 < 64 := by omega
    have e1 := b64index_b64char _ h1
    have e2 := b64index_b64char _ h2
    have e3 := b64index_b64char _ h3
    have ne3 := b64char_ne_61 _ h3
    simp [b64encode, b64decode, e1, e2, e3, ne3]
    all_goals omega
  | a :: b :: c :: rest, h => by
    have ha : a < 256 := h a (by simp)
    have hb : b < 256 := h b (by simp)
    have hc : c < 256 := h c (by simp)
    have hr : ∀ x ∈ rest, x < 256 := fun x hx => h x (by simp [hx])
    have ih := b64decode_encode rest hr
    have h1 : a / 4 < 64 := by omega
    have h2 : a % 4 * 16 + b / 16 < 64 := by omega
    have h3 : b % 16 * 4 + c / 64 < 64 := by omega
    have h4 : c % 64 < 64 := by omega
    have e1 := b64index_b64char _ h1
    have e2 := b64index_b64char _ h2
    have e3 := b64index_b64char _ h3
    have e4 := b64index_b64char _ h4
    have ne3 := b64char_ne_61 _ h3
    have ne4 := b64char_ne_61 _ h4
    simp [b64encode, b64decode, e1, e2, e3, e4, ne3, ne4, ih]
    all_goals omega

end TokenManager

section ClaimC9

open TokenManager

/-- C9: token obfuscation round-trips: deobfuscating the obfuscated
form of any token (modelled as its UTF-8 byte sequence) returns the
token verbatim. -/
theorem deobfuscate_obfuscate (t : List Nat) (h : ∀ b ∈ t, b < 256) :
    deobfuscate (obfuscate t) = t := by
  have henc := b64decode_encode t h
  unfold obfuscate deobfuscate
  rw [if_neg (by simp), if_pos (by rfl)]
  have hdrop : ((79 :: 66 :: 70 :: 58 :: (b64encode t).reverse : List Nat).drop 4) =
      (b64encode t).reverse := rfl
  rw [hdrop, List.reverse_reverse, henc]

/-- Witness for C9 at a concrete token: the bytes of the string
`Hello!` survive the obfuscate/deobfuscate round trip. -/
theorem deobfuscate_obfuscate_witness :
    deobfuscate (obfuscate [72, 101, 108, 108, 111, 33]) = [72, 101, 108, 108, 111, 33] :=
  deobfuscate_obfuscate [72, 101, 108, 108, 111, 33] (by decide)

end ClaimC9
